import Mathlib

/-!
Shallow embedding of the plan-fact analytics engine (src/app.py) over exact
rational arithmetic.  Pandas Series / numpy arrays become `List ℚ`, dataframe
rows become structures, and the pandas groupby / merge / element-wise column
operations become explicit list operations.  Month period keys (`YYYY-MM`
strings produced by `dt.to_period('M')`) are modelled as `Nat`: the
lexicographic order on the zero-padded period strings coincides with the
chronological order, which is all the code uses.

In this exact-arithmetic model a division only happens with nonzero
denominator, so there is no NaN or ±infinity value at all; pandas' `inf`/`NaN`
results (which arise exactly from zero denominators) correspond to the
explicit zero-denominator branches below.
-/

namespace PlanFact

/-- Python `int(...)` / numpy `.astype(int)`: truncation toward zero. -/
def pyInt (q : ℚ) : ℤ :=
  if 0 ≤ q then ⌊q⌋ else ⌈q⌉

/-- Round to nearest integer, ties to even — the rounding used by Python's
built-in `round` and numpy/pandas `round`. -/
def roundHalfEven (q : ℚ) : ℤ :=
  let f := ⌊q⌋
  let r := q - (f : ℚ)
  if r < 1/2 then f
  else if 1/2 < r then f + 1
  else if f % 2 = 0 then f else f + 1

/-- `round(x, 2)` / pandas `.round(2)`: round to two decimal places. -/
def round2 (q : ℚ) : ℚ :=
  (roundHalfEven (q * 100) : ℚ) / 100

/-! ## safe_divide (src/app.py lines 459–469)

The source dispatches on the runtime shapes of its arguments; each branch is
embedded separately.
-/

/-- `safe_divide` on two scalars: `numerator / denominator if denominator != 0
else default`. -/
def safe_divide (numerator denominator default : ℚ) : ℚ :=
  if denominator ≠ 0 then numerator / denominator else default

/-- `safe_divide` on two Series:
`numerator.div(denominator).replace([inf, -inf], default).fillna(default)`.
In exact arithmetic `±inf` (n≠0, d=0) and `NaN` (0/0) arise exactly at zero
denominators, and both are mapped to `default`. -/
def safe_divide_series (numerator denominator : List ℚ) (default : ℚ) : List ℚ :=
  List.zipWith (fun n d => if d = 0 then default else n / d) numerator denominator

/-- `safe_divide` with a Series numerator and a scalar denominator (the
`np.where(denominator != 0, numerator / denominator, default)` branch). -/
def safe_divide_mixed (numerator : List ℚ) (denominator default : ℚ) : List ℚ :=
  numerator.map fun n => if denominator ≠ 0 then n / denominator else default

/-! ## Data model: fact rows, plan rows, reconciled rows -/

/-- One row of the fact table after date normalisation: the `Month` column
(`dt.to_period('M')`) has already been computed.  `s` is the `Sum` column
(line total), `qty` the `Qty` column. -/
structure FactRow where
  magazin : String
  segment : String
  month : Nat
  s : ℚ
  qty : ℚ
  deriving DecidableEq

/-- One row of the plan table. -/
structure PlanRow where
  magazin : String
  segment : String
  month : Nat
  revenuePlan : ℚ
  unitsPlan : ℚ
  deriving DecidableEq

/-- One row of the reconciled (merged) table produced by `prepare_data`. -/
structure MergedRow where
  magazin : String
  segment : String
  month : Nat
  revenuePlan : ℚ
  unitsPlan : ℚ
  revenueFact : ℚ
  unitsFact : ℚ
  revenueDiff : ℚ
  revenueDiffPct : ℚ
  unitsDiff : ℚ
  unitsDiffPct : ℚ
  deriving DecidableEq

/-- The (outlet, segment, month) grouping key of a fact row. -/
def FactRow.key (f : FactRow) : String × String × Nat :=
  (f.magazin, f.segment, f.month)

/-- The (outlet, segment, month) key of a plan row. -/
def PlanRow.key (p : PlanRow) : String × String × Nat :=
  (p.magazin, p.segment, p.month)

/-- The (outlet, segment, month) key of a merged row. -/
def MergedRow.key (r : MergedRow) : String × String × Nat :=
  (r.magazin, r.segment, r.month)

/-- Total of the `Sum` column over the fact rows with a given key. -/
def sumRevAt (facts : List FactRow) (k : String × String × Nat) : ℚ :=
  ((facts.filter fun f => f.key = k).map FactRow.s).sum

/-- Total of the `Qty` column over the fact rows with a given key. -/
def sumQtyAt (facts : List FactRow) (k : String × String × Nat) : ℚ :=
  ((facts.filter fun f => f.key = k).map FactRow.qty).sum

/-- The distinct keys present in the fact table (groupby group keys). -/
def factKeys (facts : List FactRow) : List (String × String × Nat) :=
  (facts.map FactRow.key).dedup

/-- `fact_agg`: groupby (Magazin, Segment, Month) of the fact table, summing
`Sum` and `Qty` — one row `(key, Revenue_Fact, Units_Fact)` per distinct key. -/
def fact_agg (facts : List FactRow) : List ((String × String × Nat) × ℚ × ℚ) :=
  (factKeys facts).map fun k => (k, sumRevAt facts k, sumQtyAt facts k)

/-- Left-join lookup with `fillna(0)`: the aggregate row for key `k`, or
`(0, 0)` when the fact table has no such key. -/
def lookupAgg (agg : List ((String × String × Nat) × ℚ × ℚ))
    (k : String × String × Nat) : ℚ × ℚ :=
  match agg.find? (fun e => e.1 = k) with
  | some e => e.2
  | none => (0, 0)

/-- `prepare_data` (src/app.py lines 414–454), starting from the
month-normalised fact table: aggregate facts by (Magazin, Segment, Month),
left-join the plan table with the aggregate, fill the missing actuals with 0,
and compute the variance columns with `safe_divide`.  Returns the merged table
together with the month-normalised fact table (the source's `df_fact`). -/
def prepare_data (df_fact : List FactRow) (df_plan : List PlanRow) :
    List MergedRow × List FactRow :=
  let agg := fact_agg df_fact
  let merged := df_plan.map fun p =>
    let a := lookupAgg agg p.key
    let revenueDiff := a.1 - p.revenuePlan
    let unitsDiff := a.2 - p.unitsPlan
    { magazin := p.magazin
      segment := p.segment
      month := p.month
      revenuePlan := p.revenuePlan
      unitsPlan := p.unitsPlan
      revenueFact := a.1
      unitsFact := a.2
      revenueDiff := revenueDiff
      revenueDiffPct := round2 (safe_divide revenueDiff p.revenuePlan 0 * 100)
      unitsDiff := unitsDiff
      unitsDiffPct := round2 (safe_divide unitsDiff p.unitsPlan 0 * 100) }
  (merged, df_fact)

/-! ## Monthly series and growth rate (src/app.py lines 571–593) -/

/-- One row of `monthly_sales`: a calendar month with total revenue (`Sum`)
and total units (`Qty`). -/
structure MonthPoint where
  month : Nat
  s : ℚ
  qty : ℚ
  deriving DecidableEq

/-- Insert a point into a month-ascending list (used to model
`sort_values('Month')`). -/
def insertByMonth (m : MonthPoint) : List MonthPoint → List MonthPoint
  | [] => [m]
  | x :: xs => if m.month ≤ x.month then m :: x :: xs else x :: insertByMonth m xs

/-- Sort a monthly table chronologically (`sort_values('Month')`). -/
def sortByMonth : List MonthPoint → List MonthPoint
  | [] => []
  | x :: xs => insertByMonth x (sortByMonth xs)

/-- The distinct months present in the fact table. -/
def monthKeys (facts : List FactRow) : List Nat :=
  (facts.map FactRow.month).dedup

/-- Total fact revenue in a given month. -/
def sumRevMonth (facts : List FactRow) (m : Nat) : ℚ :=
  ((facts.filter fun f => f.month = m).map FactRow.s).sum

/-- Total fact units in a given month. -/
def sumQtyMonth (facts : List FactRow) (m : Nat) : ℚ :=
  ((facts.filter fun f => f.month = m).map FactRow.qty).sum

/-- `monthly_sales`: groupby Month of the fact table summing `Sum` and `Qty`,
sorted chronologically. -/
def monthly_sales (facts : List FactRow) : List MonthPoint :=
  sortByMonth ((monthKeys facts).map fun m =>
    { month := m, s := sumRevMonth facts m, qty := sumQtyMonth facts m })

/-- Arithmetic mean of a list (`np.mean`; junk value 0 on the empty list,
which the callers below always guard against). -/
def mean (l : List ℚ) : ℚ :=
  l.sum / l.length

/-- The month-over-month percent changes of a revenue sequence, keeping only
pairs whose prior value is strictly positive (the `if prev_revenue > 0`
guard in the source). -/
def growthRates : List ℚ → List ℚ
  | a :: b :: rest => (if 0 < a then [(b - a) / a * 100] else []) ++ growthRates (b :: rest)
  | _ => []

/-- Restatement of the spec's wording for the growth-rate estimator, for
comparison with `growthRates`: the spec says a pair is skipped exactly when
the prior month's revenue *is 0*, while the source skips whenever it is not
strictly positive.  The two agree on nonnegative revenue series. -/
def specGrowthRates : List ℚ → List ℚ
  | a :: b :: rest => (if a ≠ 0 then [(b - a) / a * 100] else []) ++ specGrowthRates (b :: rest)
  | _ => []

/-- `calculate_growth_rate` (src/app.py lines 571–593): build the monthly
series from the detailed fact table, then average the consecutive percent
changes (0 if fewer than 2 months or no valid pair).  The source also takes
`df_merged` but never reads it. -/
def calculate_growth_rate (df_fact : List FactRow) : ℚ × List MonthPoint :=
  let ms := monthly_sales df_fact
  if ms.length < 2 then (0, ms)
  else
    let rates := growthRates (ms.map MonthPoint.s)
    (if rates.isEmpty then 0 else mean rates, ms)

/-! ## Forecast models (src/app.py lines 632–804)

Each model returns revenue and unit forecasts for `periods` future months, or
`none` when the series is too short (the source returns `None, None`).  The
in-sample accuracy metrics are not embedded: the claims under verification do
not constrain their values (RMSE involves an irrational square root), and a
model's accuracy is `None` exactly when its forecast is `None`.
-/

/-- A model's forecast: per-future-month revenue and unit values. -/
structure Forecast where
  revenue : List ℚ
  units : List ℚ
  modelName : String
  deriving DecidableEq

/-- The zero-based month indices `np.arange(n)` as rationals. -/
def idxList (n : ℕ) : List ℚ :=
  (List.range n).map fun i => (i : ℚ)

/-- Dot product of two lists (`np.sum(a * b)`). -/
def dot (xs ys : List ℚ) : ℚ :=
  (List.zipWith (· * ·) xs ys).sum

/-- Ordinary least-squares slope of `ys` against indices `0..n-1` — the line
`sklearn.LinearRegression` fits.  For `n ≥ 2` the denominator `Sxx` is
positive (the indices are distinct). -/
def olsSlope (ys : List ℚ) : ℚ :=
  let xs := idxList ys.length
  let xbar := mean xs
  let ybar := mean ys
  let sxx := (xs.map fun x => (x - xbar) ^ 2).sum
  let sxy := (List.zipWith (fun x y => (x - xbar) * (y - ybar)) xs ys).sum
  sxy / sxx

/-- Ordinary least-squares intercept of `ys` against indices `0..n-1`. -/
def olsIntercept (ys : List ℚ) : ℚ :=
  mean ys - olsSlope ys * mean (idxList ys.length)

/-- Prediction of the fitted least-squares line at index `t`. -/
def olsPredict (ys : List ℚ) (t : ℚ) : ℚ :=
  olsIntercept ys + olsSlope ys * t

/-- `forecast_linear_regression` (src/app.py lines 632–666): fit revenue and
units against the month index by least squares, predict indices
`n..n+periods-1`, clamp negatives to 0. -/
def forecast_linear_regression (ms : List MonthPoint) (periods : ℕ) : Option Forecast :=
  if ms.length < 2 then none
  else
    let yr := ms.map MonthPoint.s
    let yu := ms.map MonthPoint.qty
    some { revenue := (List.range periods).map fun i =>
             max (olsPredict yr ((ms.length : ℚ) + (i : ℚ))) 0
           units := (List.range periods).map fun i =>
             max (olsPredict yu ((ms.length : ℚ) + (i : ℚ))) 0
           modelName := "linear_regression" }

/-- Determinant of a 3×3 matrix given row by row. -/
def det3 (a b c d e f g h i : ℚ) : ℚ :=
  a * (e * i - f * h) - b * (d * i - f * g) + c * (d * h - e * g)

/-- `Σ_{i<n} i^k` over the month indices. -/
def powSum (n k : ℕ) : ℚ :=
  ((List.range n).map fun i => ((i : ℚ)) ^ k).sum

/-- `Σ_i i^k * ys[i]`. -/
def momSum (ys : List ℚ) (k : ℕ) : ℚ :=
  (ys.enum.map fun p => ((p.1 : ℚ)) ^ k * p.2).sum

/-- Coefficients `(a, b, c)` of the least-squares quadratic
`a + b·x + c·x²` through `(i, ys[i])`, by Cramer's rule on the normal
equations.  `sklearn.LinearRegression` over `PolynomialFeatures(degree=2)`
computes the least-squares projection onto span{1, x, x²}; for `n ≥ 3`
distinct indices the normal matrix is invertible, so Cramer's rule yields the
same fitted polynomial. -/
def polyCoeffs (ys : List ℚ) : ℚ × ℚ × ℚ :=
  let n : ℚ := (ys.length : ℚ)
  let s1 := powSum ys.length 1
  let s2 := powSum ys.length 2
  let s3 := powSum ys.length 3
  let s4 := powSum ys.length 4
  let t0 := momSum ys 0
  let t1 := momSum ys 1
  let t2 := momSum ys 2
  let d := det3 n s1 s2 s1 s2 s3 s2 s3 s4
  (det3 t0 s1 s2 t1 s2 s3 t2 s3 s4 / d,
   det3 n t0 s2 s1 t1 s3 s2 t2 s4 / d,
   det3 n s1 t0 s1 s2 t1 s2 s3 t2 / d)

/-- Prediction of the fitted least-squares quadratic at index `t`. -/
def polyPredict (ys : List ℚ) (t : ℚ) : ℚ :=
  let c := polyCoeffs ys
  c.1 + c.2.1 * t + c.2.2 * t ^ 2

/-- `forecast_polynomial_regression` with `degree = 2` (src/app.py lines
669–708): quadratic least-squares fit of revenue and units against the month
index; requires at least `degree + 1 = 3` points. -/
def forecast_polynomial_regression (ms : List MonthPoint) (periods : ℕ) : Option Forecast :=
  if ms.length < 3 then none
  else
    let yr := ms.map MonthPoint.s
    let yu := ms.map MonthPoint.qty
    some { revenue := (List.range periods).map fun i =>
             max (polyPredict yr ((ms.length : ℚ) + (i : ℚ))) 0
           units := (List.range periods).map fun i =>
             max (polyPredict yu ((ms.length : ℚ) + (i : ℚ))) 0
           modelName := "polynomial_regression_deg2" }

/-- Tail of the exponential-smoothing recurrence
`Sₜ = α·Yₜ + (1-α)·Sₜ₋₁` given the previous smoothed value. -/
def expSmoothAux (alpha prev : ℚ) : List ℚ → List ℚ
  | [] => []
  | y :: ys =>
    let s := alpha * y + (1 - alpha) * prev
    s :: expSmoothAux alpha s ys

/-- `exp_smoothing` (src/app.py lines 720–724): `S₁ = Y₁`,
`Sₜ = α·Yₜ + (1-α)·Sₜ₋₁`. -/
def exp_smoothing (data : List ℚ) (alpha : ℚ) : List ℚ :=
  match data with
  | [] => []
  | y :: ys => y :: expSmoothAux alpha y ys

/-- `forecast_exponential_smoothing` with `α = 0.3` (src/app.py lines
711–754): smooth the revenue series, then extrapolate linearly with the trend
between the last two smoothed revenue values (last two raw unit values for
units), clamping negatives to 0. -/
def forecast_exponential_smoothing (ms : List MonthPoint) (periods : ℕ) : Option Forecast :=
  if ms.length < 2 then none
  else
    let revs := ms.map MonthPoint.s
    let us := ms.map MonthPoint.qty
    let smoothed := exp_smoothing revs (3 / 10)
    let lastR := smoothed.getLastD 0
    let trendR := lastR - smoothed.dropLast.getLastD 0
    let lastU := us.getLastD 0
    let trendU := lastU - us.dropLast.getLastD 0
    some { revenue := (List.range periods).map fun i =>
             max 0 (lastR + trendR * ((i : ℚ) + 1))
           units := (List.range periods).map fun i =>
             max 0 (lastU + trendU * ((i : ℚ) + 1))
           modelName := "exponential_smoothing" }

/-- The normalized weight vector `arange(1, window+1) / sum` (most recent
month weighted highest). -/
def wmaWeights (window : ℕ) : List ℚ :=
  let raw := (List.range window).map fun i => (i : ℚ) + 1
  raw.map fun w => w / raw.sum

/-- The multi-step WMA forecast loop: each step emits
`max(0, Σ weights·buffer)` and slides the *unclamped* weighted average into
the buffer (`np.append(last_values[1:], next_value)` in the source). -/
def wmaIter (weights buffer : List ℚ) : ℕ → List ℚ
  | 0 => []
  | p + 1 =>
    let next := dot weights buffer
    max 0 next :: wmaIter weights (buffer.drop 1 ++ [next]) p

/-- `forecast_weighted_moving_average` (src/app.py lines 757–804): requires
at least `window` points; forecasts by iterating the weighted average over a
sliding buffer seeded with the last `window` values (`data[-window:]`; for
`window = 0`, numpy's `data[-0:]` is the whole array).  The in-sample WMA
sequence feeds only the accuracy metrics, which are not embedded. -/
def forecast_weighted_moving_average (ms : List MonthPoint) (periods window : ℕ) :
    Option Forecast :=
  if ms.length < window then none
  else
    let weights := wmaWeights window
    let revs := ms.map MonthPoint.s
    let us := ms.map MonthPoint.qty
    let bufR := if window = 0 then revs else revs.drop (revs.length - window)
    let bufU := if window = 0 then us else us.drop (us.length - window)
    some { revenue := wmaIter weights bufR periods
           units := wmaIter weights bufU periods
           modelName := "weighted_moving_average" }

/-- The four model runs the ensemble collects (src/app.py lines 813–818),
with the WMA window `min(3, len(monthly_sales))`. -/
def ensembleModels (ms : List MonthPoint) (periods : ℕ) : List (Option Forecast) :=
  [forecast_linear_regression ms periods,
   forecast_polynomial_regression ms periods,
   forecast_exponential_smoothing ms periods,
   forecast_weighted_moving_average ms periods (min 3 ms.length)]

/-- Column means of a stack of length-`periods` rows
(`np.mean(list_of_arrays, axis=0)`). -/
def meanAtCols (ls : List (List ℚ)) (periods : ℕ) : List ℚ :=
  (List.range periods).map fun i => (ls.map fun l => l.getD i 0).sum / (ls.length : ℚ)

/-- `forecast_ensemble` (src/app.py lines 807–850): run the four models, keep
those that produced a result, return `none` if none did, otherwise the
per-month arithmetic mean of the surviving revenue and unit forecasts. -/
def forecast_ensemble (ms : List MonthPoint) (periods : ℕ) : Option Forecast :=
  let valid := (ensembleModels ms periods).filterMap id
  if valid.isEmpty then none
  else
    some { revenue := meanAtCols (valid.map Forecast.revenue) periods
           units := meanAtCols (valid.map Forecast.units) periods
           modelName := "ensemble" }

/-! ## Scenario projection (src/app.py lines 899–925) -/

/-- One row of the forecast table built by `forecast_with_multiple_models`:
the accuracy columns are carried as opaque numeric data here (the scenario
projector copies them untouched). -/
structure ForecastTableRow where
  month : Nat
  forecastRevenue : ℚ
  forecastUnits : ℤ
  model : String
  modelKey : String
  mape : ℚ
  rmse : ℚ
  mae : ℚ
  rmsePct : ℚ
  maePct : ℚ
  meanValue : ℚ
  deriving DecidableEq

/-- A scenario-adjusted forecast row (`apply_scenario` adds the scenario name
and factor columns). -/
structure ScenarioRow where
  month : Nat
  forecastRevenue : ℚ
  forecastUnits : ℤ
  model : String
  modelKey : String
  mape : ℚ
  rmse : ℚ
  mae : ℚ
  rmsePct : ℚ
  maePct : ℚ
  meanValue : ℚ
  scenarioName : String
  scenarioFactor : ℚ
  deriving DecidableEq

/-- The `scenario_factors` dict: 1.20 / 1.00 / 0.85. -/
def scenario_factors (s : String) : Option ℚ :=
  if s = "optimistic" then some (6 / 5)
  else if s = "realistic" then some 1
  else if s = "pessimistic" then some (17 / 20)
  else none

/-- The `scenario_names` dict (display names abstracted to tags). -/
def scenario_names (s : String) : Option String :=
  if s = "optimistic" then some "optimistic_name"
  else if s = "realistic" then some "realistic_name"
  else if s = "pessimistic" then some "pessimistic_name"
  else none

/-- `apply_scenario` (src/app.py lines 899–925).  `None` or an empty table
returns `None` before any lookup; otherwise the factor lookup falls back to
1.0 (`dict.get(scenario, 1.0)`) while `scenario_names[scenario]` raises
`KeyError` for an unknown scenario — modelled as `Except Unit`.  Revenue is
scaled by the factor and units by the factor then cast with
`.astype(int)` (truncation toward zero); all other columns are copied. -/
def apply_scenario (forecast_df : Option (List ForecastTableRow)) (scenario : String) :
    Except Unit (Option (List ScenarioRow)) :=
  match forecast_df with
  | none => .ok none
  | some rows =>
    if rows.isEmpty then .ok none
    else
      let factor := (scenario_factors scenario).getD 1
      match scenario_names scenario with
      | none => .error ()
      | some nm => .ok (some (rows.map fun r =>
          { month := r.month
            forecastRevenue := r.forecastRevenue * factor
            forecastUnits := pyInt ((r.forecastUnits : ℚ) * factor)
            model := r.model
            modelKey := r.modelKey
            mape := r.mape
            rmse := r.rmse
            mae := r.mae
            rmsePct := r.rmsePct
            maePct := r.maePct
            meanValue := r.meanValue
            scenarioName := nm
            scenarioFactor := factor }))

/-! ## ABC analysis (src/app.py lines 526–556) -/

/-- `assign_abc_category` (src/app.py lines 541–547). -/
def assign_abc_category (pct : ℚ) : Char :=
  if pct ≤ 80 then 'A'
  else if pct ≤ 95 then 'B'
  else 'C'

/-- Per-outlet sums before sorting: `(Magazin, Revenue_Fact, Revenue_Plan)`. -/
def store_group (merged : List MergedRow) : List (String × ℚ × ℚ) :=
  ((merged.map MergedRow.magazin).dedup).map fun mag =>
    (mag,
     ((merged.filter fun r => r.magazin = mag).map MergedRow.revenueFact).sum,
     ((merged.filter fun r => r.magazin = mag).map MergedRow.revenuePlan).sum)

/-- Insert into a list sorted by descending fact revenue. -/
def insertByRevDesc (x : String × ℚ × ℚ) : List (String × ℚ × ℚ) → List (String × ℚ × ℚ)
  | [] => [x]
  | y :: ys => if y.2.1 ≤ x.2.1 then x :: y :: ys else y :: insertByRevDesc x ys

/-- Sort outlets by fact revenue descending (`sort_values('Revenue_Fact',
ascending=False)`). -/
def sortByRevDesc : List (String × ℚ × ℚ) → List (String × ℚ × ℚ)
  | [] => []
  | x :: xs => insertByRevDesc x (sortByRevDesc xs)

/-- One output row of the ABC analysis. -/
structure AbcRow where
  magazin : String
  revenueFact : ℚ
  revenuePlan : ℚ
  revenueCumsum : ℚ
  revenueCumsumPct : ℚ
  abcCategory : Char
  performance : ℚ
  deriving DecidableEq

/-- Running cumulative sum of fact revenue down the sorted outlet list,
with the percent / category / performance columns; `total` is the grand total
of fact revenue (scalar denominator of the `np.where` branch of
`safe_divide`). -/
def abcRows (acc total : ℚ) : List (String × ℚ × ℚ) → List AbcRow
  | [] => []
  | x :: xs =>
    let c := acc + x.2.1
    let pct := (if total ≠ 0 then c / total else 0) * 100
    { magazin := x.1
      revenueFact := x.2.1
      revenuePlan := x.2.2
      revenueCumsum := c
      revenueCumsumPct := pct
      abcCategory := assign_abc_category pct
      performance := safe_divide x.2.1 x.2.2 0 * 100 } :: abcRows c total xs

/-- `perform_abc_analysis` (src/app.py lines 526–556): group the merged table
by outlet summing fact and plan revenue, sort by fact revenue descending,
take the cumulative sum and its percent of the grand total (safe division),
and assign the ABC category.  `Performance` is the outlet's plan-achievement
percent (Series/Series `safe_divide`, element-wise). -/
def perform_abc_analysis (merged : List MergedRow) : List AbcRow :=
  let sorted := sortByRevDesc (store_group merged)
  let total := (sorted.map fun x => x.2.1).sum
  abcRows 0 total sorted

/-! ## Growth-based forecast and smart plan (src/app.py lines 928–953 and
1033–1072) -/

/-- One row of the `forecast_next_period` table. -/
structure NextForecastRow where
  month : Nat
  forecastRevenue : ℚ
  forecastUnits : ℤ
  growthRate : ℚ
  deriving DecidableEq

/-- `forecast_next_period` (src/app.py lines 928–953): compound the last
month's revenue and units by the average growth rate for each future month
(`last · (1 + g/100)^i`), units cast with `int(...)`. -/
def forecast_next_period (df_fact : List FactRow) (periods : ℕ) :
    Option (List NextForecastRow) :=
  let gm := calculate_growth_rate df_fact
  match (gm.2).getLast? with
  | none => none
  | some last =>
    some ((List.range periods).map fun i =>
      { month := last.month + (i + 1)
        forecastRevenue := last.s * (1 + gm.1 / 100) ^ (i + 1)
        forecastUnits := pyInt (last.qty * (1 + gm.1 / 100) ^ (i + 1))
        growthRate := gm.1 })

/-- Per (outlet, segment) means of fact revenue and units
(`groupby(['Magazin','Segment']).agg mean`). -/
def store_segment_avg (merged : List MergedRow) : List ((String × String) × ℚ × ℚ) :=
  ((merged.map fun r => (r.magazin, r.segment)).dedup).map fun k =>
    (k,
     mean ((merged.filter fun r => (r.magazin, r.segment) = k).map MergedRow.revenueFact),
     mean ((merged.filter fun r => (r.magazin, r.segment) = k).map MergedRow.unitsFact))

/-- One row of the smart plan. -/
structure SmartPlanRow where
  magazin : String
  segment : String
  month : Nat
  revenuePlan : ℚ
  unitsPlan : ℤ
  growthRate : ℚ
  deriving DecidableEq

/-- `create_smart_plan` (src/app.py lines 1033–1072): for every
(outlet, segment) pair and every forecast month, allocate
`forecast × share × adjustment_factor` where `share` is the pair's mean fact
revenue over the total of all pairs' means (scalar `safe_divide`), rounding
revenue to 2 decimals (`round(..., 2)`) and truncating units with `int(...)`. -/
def create_smart_plan (merged : List MergedRow) (df_fact : List FactRow)
    (forecast_periods : ℕ) (adjustment_factor : ℚ) : Option (List SmartPlanRow) :=
  match forecast_next_period df_fact forecast_periods with
  | none => none
  | some forecast_df =>
    if forecast_df.isEmpty then none
    else
      let pairs := store_segment_avg merged
      let total := (pairs.map fun p => p.2.1).sum
      some (pairs.flatMap fun row =>
        forecast_df.map fun fc =>
          let share := safe_divide row.2.1 total 0
          { magazin := row.1.1
            segment := row.1.2
            month := fc.month
            revenuePlan := round2 (fc.forecastRevenue * share * adjustment_factor)
            unitsPlan := pyInt ((fc.forecastUnits : ℚ) * share * adjustment_factor)
            growthRate := fc.growthRate })

/-! ## Recommendation engine (src/app.py lines 956–1030) -/

/-- Recommendation priorities (source strings abstracted to tags). -/
inductive RecPriority where
  | high
  | medium
  | critical
  deriving DecidableEq

/-- Recommendation categories, one per rule family of the source. -/
inductive RecCategory where
  | planAchievement
  | segments
  | abcAnalysis
  | avgCheck
  | networkEfficiency
  deriving DecidableEq

/-- One recommendation row (the free-text issue / recommendation / impact
columns carry no logic and are not embedded). -/
structure Recommendation where
  prio : RecPriority
  category : RecCategory
  deriving DecidableEq

/-- The subset of `calculate_financial_metrics` the recommendation engine
reads. -/
structure FinMetrics where
  planAchievement : ℚ
  avgCheckDiffPct : ℚ
  storeSuccessRate : ℚ
  deriving DecidableEq

/-- Per-segment achievement percent (`groupby('Segment')` sums and
Series/Series `safe_divide × 100`). -/
def segment_performance (merged : List MergedRow) : List (String × ℚ) :=
  ((merged.map MergedRow.segment).dedup).map fun seg =>
    let fact := ((merged.filter fun r => r.segment = seg).map MergedRow.revenueFact).sum
    let plan := ((merged.filter fun r => r.segment = seg).map MergedRow.revenuePlan).sum
    (seg, safe_divide fact plan 0 * 100)

/-- `generate_plan_recommendations` (src/app.py lines 956–1030): five
independent, additive rules; the plan-achievement rule is an `if/elif`, so
the under- and over-achievement branches are mutually exclusive. -/
def generate_plan_recommendations (merged : List MergedRow) (fm : FinMetrics)
    (abc : List AbcRow) : List Recommendation :=
  (if fm.planAchievement < 90 then
    [{ prio := .high, category := .planAchievement }]
  else if fm.planAchievement > 110 then
    [{ prio := .medium, category := .planAchievement }]
  else []) ++
  (((segment_performance merged).filter fun sp => sp.2 < 85).map fun _ =>
    { prio := .high, category := .segments }) ++
  (if (abc.filter fun r => r.abcCategory = 'C').length > 0 then
    [{ prio := .medium, category := .abcAnalysis }]
  else []) ++
  (if fm.avgCheckDiffPct < -10 then
    [{ prio := .high, category := .avgCheck }]
  else []) ++
  (if fm.storeSuccessRate < 50 then
    [{ prio := .critical, category := .networkEfficiency }]
  else [])

/-! ## Supporting lemmas -/

lemma insertByRevDesc_map_sum (x : String × ℚ × ℚ) (l : List (String × ℚ × ℚ)) :
    ((insertByRevDesc x l).map fun y => y.2.1).sum = x.2.1 + (l.map fun y => y.2.1).sum := by
  induction l with
  | nil => simp [insertByRevDesc]
  | cons y ys ih =>
    by_cases h : y.2.1 ≤ x.2.1
    · simp [insertByRevDesc, h]
    · simp only [insertByRevDesc, if_neg h, List.map_cons, List.sum_cons, ih]
      ring

lemma sortByRevDesc_map_sum (l : List (String × ℚ × ℚ)) :
    ((sortByRevDesc l).map fun y => y.2.1).sum = (l.map fun y => y.2.1).sum := by
  induction l with
  | nil => rfl
  | cons x xs ih => simp [sortByRevDesc, insertByRevDesc_map_sum, ih]

lemma apply_scenario_ok (rows : List ForecastTableRow) (scen nm : String)
    (hemp : rows.isEmpty = false) (hnm : scenario_names scen = some nm) :
    apply_scenario (some rows) scen = .ok (some (rows.map fun r =>
      { month := r.month
        forecastRevenue := r.forecastRevenue * (scenario_factors scen).getD 1
        forecastUnits := pyInt ((r.forecastUnits : ℚ) * (scenario_factors scen).getD 1)
        model := r.model
        modelKey := r.modelKey
        mape := r.mape
        rmse := r.rmse
        mae := r.mae
        rmsePct := r.rmsePct
        maePct := r.maePct
        meanValue := r.meanValue
        scenarioName := nm
        scenarioFactor := (scenario_factors scen).getD 1 })) := by
  simp only [apply_scenario, hemp, hnm]
  rfl

lemma abcRows_zero_total (l : List (String × ℚ × ℚ)) (acc : ℚ) :
    ∀ row ∈ abcRows acc 0 l, row.revenueCumsumPct = 0 ∧ row.abcCategory = 'A' := by
  induction l generalizing acc with
  | nil => simp [abcRows]
  | cons x xs ih =>
    intro row hrow
    simp only [abcRows, List.mem_cons] at hrow
    rcases hrow with h | h
    · subst h
      constructor
      · norm_num
      · simp [assign_abc_category]
    · exact ih _ row h

/-! ## Claim theorems -/

/-- C1: `safe_divide(n, d, default)` returns `default` whenever `d = 0` and
`n / d` otherwise, in each of the three input shapes the function accepts
(scalar/scalar, Series/Series element-wise, Series/scalar element-wise).  In
this exact-arithmetic model the result is always a finite rational: the
`±inf`/`NaN` values pandas produces at zero denominators correspond exactly
to the `d = 0` branches, all of which return `default`. -/
theorem safe_divide_spec :
    (∀ n d default : ℚ, safe_divide n d default = if d = 0 then default else n / d) ∧
    (∀ (ns ds : List ℚ) (default : ℚ) (i : ℕ)
       (h1 : i < ns.length) (h2 : i < ds.length)
       (h : i < (safe_divide_series ns ds default).length),
       (safe_divide_series ns ds default).get ⟨i, h⟩ =
         if ds.get ⟨i, h2⟩ = 0 then default else ns.get ⟨i, h1⟩ / ds.get ⟨i, h2⟩) ∧
    (∀ (ns : List ℚ) (d default : ℚ) (i : ℕ)
       (h1 : i < ns.length) (h : i < (safe_divide_mixed ns d default).length),
       (safe_divide_mixed ns d default).get ⟨i, h⟩ =
         if d = 0 then default else ns.get ⟨i, h1⟩ / d) := by
  refine ⟨?_, ?_, ?_⟩
  · intro n d default
    unfold safe_divide
    by_cases hd : d = 0 <;> simp [hd]
  · intro ns ds default i h1 h2 h
    simp [safe_divide_series, List.get_eq_getElem, List.getElem_zipWith]
  · intro ns d default i h1 h
    unfold safe_divide_mixed
    simp only [List.get_eq_getElem, List.getElem_map]
    by_cases hd : d = 0 <;> simp [hd]

/-- Witness for C1 at concrete inputs. -/
theorem safe_divide_spec_witness :
    safe_divide 4 0 7 = 7 ∧
    (safe_divide_series [4] [2] 9).get ⟨0, by decide⟩ = 2 ∧
    (safe_divide_mixed [6] 0 5).get ⟨0, by decide⟩ = 5 := by
  refine ⟨?_, ?_, ?_⟩
  · have h := safe_divide_spec.1 4 0 7
    norm_num at h
    exact h
  · have h := safe_divide_spec.2.1 [4] [2] 9 0 (by decide) (by decide) (by decide)
    norm_num at h
    exact h
  · have h := safe_divide_spec.2.2 [6] 0 5 0 (by decide) (by decide)
    norm_num at h
    exact h

/-- C5: ABC classification by cumulative-percent thresholds — at most 80
(inclusive) gives A, above 80 up to 95 (inclusive) gives B, above 95 gives
C. -/
theorem assign_abc_category_spec (pct : ℚ) :
    (pct ≤ 80 → assign_abc_category pct = 'A') ∧
    (80 < pct → pct ≤ 95 → assign_abc_category pct = 'B') ∧
    (95 < pct → assign_abc_category pct = 'C') := by
  unfold assign_abc_category
  refine ⟨fun h => by simp [h], fun h1 h2 => ?_, fun h => ?_⟩
  · rw [if_neg (by linarith), if_pos h2]
  · rw [if_neg (by linarith), if_neg (by linarith)]

/-- Witness for C5 at the boundary values 80, 80.01, 95.01. -/
theorem assign_abc_category_spec_witness :
    assign_abc_category 80 = 'A' ∧
    assign_abc_category (8001 / 100) = 'B' ∧
    assign_abc_category (9501 / 100) = 'C' :=
  ⟨(assign_abc_category_spec 80).1 (by norm_num),
   (assign_abc_category_spec (8001 / 100)).2.1 (by norm_num) (by norm_num),
   (assign_abc_category_spec (9501 / 100)).2.2 (by norm_num)⟩

/-- C6: when the total actual revenue over all outlets is 0, every outlet's
cumulative revenue percent is 0 (safe division) and every outlet lands in
category A; `perform_abc_analysis` returns this as normal output. -/
theorem perform_abc_analysis_zero_total (merged : List MergedRow)
    (h : ((store_group merged).map fun x => x.2.1).sum = 0) :
    ∀ row ∈ perform_abc_analysis merged,
      row.revenueCumsumPct = 0 ∧ row.abcCategory = 'A' := by
  intro row hrow
  have hrow' : row ∈ abcRows 0
      (((sortByRevDesc (store_group merged)).map fun x => x.2.1).sum)
      (sortByRevDesc (store_group merged)) := hrow
  rw [(sortByRevDesc_map_sum (store_group merged)).trans h] at hrow'
  exact abcRows_zero_total _ _ row hrow'

/-- Witness for C6: two outlets with zero actual revenue. -/
theorem perform_abc_analysis_zero_total_witness :
    (⟨"A", 0, 10, 0, 0, 'A', 0⟩ : AbcRow).revenueCumsumPct = 0 ∧
    (⟨"A", 0, 10, 0, 0, 'A', 0⟩ : AbcRow).abcCategory = 'A' :=
  perform_abc_analysis_zero_total
    [⟨"A", "S", 1, 10, 1, 0, 0, 0, 0, 0, 0⟩, ⟨"B", "S", 1, 5, 1, 0, 0, 0, 0, 0, 0⟩]
    (by simp [store_group, List.dedup_cons_of_not_mem, List.filter_cons])
    ⟨"A", 0, 10, 0, 0, 'A', 0⟩
    (by simp [perform_abc_analysis, store_group, sortByRevDesc, insertByRevDesc,
      abcRows, assign_abc_category, safe_divide, List.dedup_cons_of_not_mem,
      List.filter_cons])

/-- C10: `apply_scenario` returns `None` for a `None` or empty forecast table
under any scenario string, succeeds for the three known scenarios, and raises
(`KeyError` from the `scenario_names` lookup, which has no fallback) for any
other scenario string on a non-empty table instead of defaulting to the
realistic scenario. -/
theorem apply_scenario_totality :
    (∀ scenario, apply_scenario none scenario = .ok none) ∧
    (∀ scenario, apply_scenario (some []) scenario = .ok none) ∧
    (∀ (rows : List ForecastTableRow) (scenario : String),
       rows ≠ [] → scenario ≠ "optimistic" → scenario ≠ "realistic" →
       scenario ≠ "pessimistic" →
       apply_scenario (some rows) scenario = .error ()) ∧
    (∀ (rows : List ForecastTableRow) (scenario : String),
       rows ≠ [] →
       (scenario = "optimistic" ∨ scenario = "realistic" ∨ scenario = "pessimistic") →
       ∃ out, apply_scenario (some rows) scenario = .ok (some out)) := by
  refine ⟨fun _ => rfl, fun _ => rfl, ?_, ?_⟩
  · intro rows scen hne h1 h2 h3
    cases rows with
    | nil => exact absurd rfl hne
    | cons r rs =>
      simp [apply_scenario, scenario_names, h1, h2, h3]
  · intro rows scen hne h
    cases rows with
    | nil => exact absurd rfl hne
    | cons r rs =>
      rcases h with h | h | h <;> subst h <;> exact ⟨_, rfl⟩

/-- Witness for C10: a singleton table errors on an unknown scenario and
succeeds on a known one. -/
theorem apply_scenario_totality_witness :
    apply_scenario (some [⟨1, 10, 3, "m", "k", 1, 2, 3, 4, 5, 6⟩]) "weird" = .error () ∧
    (∃ out, apply_scenario (some [⟨1, 10, 3, "m", "k", 1, 2, 3, 4, 5, 6⟩]) "realistic" =
      .ok (some out)) :=
  ⟨apply_scenario_totality.2.2.1 [⟨1, 10, 3, "m", "k", 1, 2, 3, 4, 5, 6⟩] "weird"
    (by simp) (by decide) (by decide) (by decide),
   apply_scenario_totality.2.2.2 [⟨1, 10, 3, "m", "k", 1, 2, 3, 4, 5, 6⟩] "realistic"
    (by simp) (Or.inr (Or.inl rfl))⟩

/-- C4 counterexample: the claim says scenario scaling sets forecast units to
the units times the factor *rounded to the nearest integer*, but the source
casts with `.astype(int)` (truncation toward zero): for 3 units under the
optimistic factor 1.2 the code yields 3, while rounding 3.6 to the nearest
integer yields 4. -/
theorem apply_scenario_units_counterexample :
    apply_scenario (some [⟨1, 10, 3, "m", "k", 1, 2, 3, 4, 5, 6⟩]) "optimistic" =
      .ok (some [⟨1, 12, 3, "m", "k", 1, 2, 3, 4, 5, 6, "optimistic_name", 6 / 5⟩]) ∧
    round ((3 : ℚ) * (6 / 5)) = 4 ∧ (3 : ℤ) ≠ 4 := by
  refine ⟨?_, ?_, by decide⟩
  · norm_num [apply_scenario, scenario_names, scenario_factors, pyInt]
  · rw [round_eq]
    norm_num

/-- C4 (amended): applying a scenario to a non-empty forecast table
multiplies every forecast revenue by the scenario's factor (1.20 optimistic,
1.00 realistic, 0.85 pessimistic), sets every forecast unit value to the
units times the factor *truncated toward zero* (`.astype(int)`), and leaves
the model identity and every accuracy-metric column unchanged. -/
theorem apply_scenario_spec (rows : List ForecastTableRow) (scenario : String) (factor : ℚ)
    (hfac : (scenario = "optimistic" ∧ factor = 6 / 5) ∨
            (scenario = "realistic" ∧ factor = 1) ∨
            (scenario = "pessimistic" ∧ factor = 17 / 20))
    (hne : rows ≠ []) :
    ∃ out, apply_scenario (some rows) scenario = .ok (some out) ∧
      out.length = rows.length ∧
      ∀ (i : ℕ) (h1 : i < out.length) (h2 : i < rows.length),
        (out.get ⟨i, h1⟩).forecastRevenue = (rows.get ⟨i, h2⟩).forecastRevenue * factor ∧
        (out.get ⟨i, h1⟩).forecastUnits =
          pyInt (((rows.get ⟨i, h2⟩).forecastUnits : ℚ) * factor) ∧
        (out.get ⟨i, h1⟩).model = (rows.get ⟨i, h2⟩).model ∧
        (out.get ⟨i, h1⟩).modelKey = (rows.get ⟨i, h2⟩).modelKey ∧
        (out.get ⟨i, h1⟩).mape = (rows.get ⟨i, h2⟩).mape ∧
        (out.get ⟨i, h1⟩).rmse = (rows.get ⟨i, h2⟩).rmse ∧
        (out.get ⟨i, h1⟩).mae = (rows.get ⟨i, h2⟩).mae ∧
        (out.get ⟨i, h1⟩).rmsePct = (rows.get ⟨i, h2⟩).rmsePct ∧
        (out.get ⟨i, h1⟩).maePct = (rows.get ⟨i, h2⟩).maePct ∧
        (out.get ⟨i, h1⟩).scenarioFactor = factor := by
  have hemp : rows.isEmpty = false := by
    cases rows with
    | nil => exact absurd rfl hne
    | cons r rs => rfl
  rcases hfac with ⟨hs, hf⟩ | ⟨hs, hf⟩ | ⟨hs, hf⟩ <;> subst hs <;> subst hf
  all_goals
    refine ⟨_, apply_scenario_ok rows _ _ hemp rfl, by simp, ?_⟩
    intro i h1 h2
    simp [List.get_eq_getElem, List.getElem_map, scenario_factors]

/-- Witness for C4 at a singleton table under the pessimistic scenario. -/
theorem apply_scenario_spec_witness :
    ∃ out, apply_scenario (some [⟨1, 10, 3, "m", "k", 1, 2, 3, 4, 5, 6⟩]) "pessimistic" =
        .ok (some out) ∧
      out.length = ([⟨1, 10, 3, "m", "k", 1, 2, 3, 4, 5, 6⟩] : List ForecastTableRow).length ∧
      ∀ (i : ℕ) (h1 : i < out.length)
        (h2 : i < ([⟨1, 10, 3, "m", "k", 1, 2, 3, 4, 5, 6⟩] : List ForecastTableRow).length),
        (out.get ⟨i, h1⟩).forecastRevenue =
          (([⟨1, 10, 3, "m", "k", 1, 2, 3, 4, 5, 6⟩] :
            List ForecastTableRow).get ⟨i, h2⟩).forecastRevenue * (17 / 20) ∧
        (out.get ⟨i, h1⟩).forecastUnits =
          pyInt (((([⟨1, 10, 3, "m", "k", 1, 2, 3, 4, 5, 6⟩] :
            List ForecastTableRow).get ⟨i, h2⟩).forecastUnits : ℚ) * (17 / 20)) ∧
        (out.get ⟨i, h1⟩).model =
          (([⟨1, 10, 3, "m", "k", 1, 2, 3, 4, 5, 6⟩] :
            List ForecastTableRow).get ⟨i, h2⟩).model ∧
        (out.get ⟨i, h1⟩).modelKey =
          (([⟨1, 10, 3, "m", "k", 1, 2, 3, 4, 5, 6⟩] :
            List ForecastTableRow).get ⟨i, h2⟩).modelKey ∧
        (out.get ⟨i, h1⟩).mape =
          (([⟨1, 10, 3, "m", "k", 1, 2, 3, 4, 5, 6⟩] :
            List ForecastTableRow).get ⟨i, h2⟩).mape ∧
        (out.get ⟨i, h1⟩).rmse =
          (([⟨1, 10, 3, "m", "k", 1, 2, 3, 4, 5, 6⟩] :
            List ForecastTableRow).get ⟨i, h2⟩).rmse ∧
        (out.get ⟨i, h1⟩).mae =
          (([⟨1, 10, 3, "m", "k", 1, 2, 3, 4, 5, 6⟩] :
            List ForecastTableRow).get ⟨i, h2⟩).mae ∧
        (out.get ⟨i, h1⟩).rmsePct =
          (([⟨1, 10, 3, "m", "k", 1, 2, 3, 4, 5, 6⟩] :
            List ForecastTableRow).get ⟨i, h2⟩).rmsePct ∧
        (out.get ⟨i, h1⟩).maePct =
          (([⟨1, 10, 3, "m", "k", 1, 2, 3, 4, 5, 6⟩] :
            List ForecastTableRow).get ⟨i, h2⟩).maePct ∧
        (out.get ⟨i, h1⟩).scenarioFactor = 17 / 20 :=
  apply_scenario_spec [⟨1, 10, 3, "m", "k", 1, 2, 3, 4, 5, 6⟩] "pessimistic" (17 / 20)
    (Or.inr (Or.inr ⟨rfl, rfl⟩)) (by simp)

lemma find?_map_pair {α β : Type} [DecidableEq α] (l : List α) (g : α → β) (k : α)
    (hk : k ∈ l) :
    (l.map fun a => (a, g a)).find? (fun e => e.1 = k) = some (k, g k) := by
  induction l with
  | nil => simp at hk
  | cons a as ih =>
    by_cases ha : a = k
    · subst ha
      simp
    · rw [List.map_cons, List.find?_cons_of_neg _ (by simp [ha])]
      rcases List.mem_cons.1 hk with h | h
      · exact absurd h.symm ha
      · exact ih h

lemma lookupAgg_fact_agg (facts : List FactRow) (k : String × String × Nat) :
    lookupAgg (fact_agg facts) k = (sumRevAt facts k, sumQtyAt facts k) := by
  unfold lookupAgg fact_agg
  by_cases hk : k ∈ factKeys facts
  · rw [find?_map_pair (factKeys facts)
      (fun k => (sumRevAt facts k, sumQtyAt facts k)) k hk]
  · rw [List.find?_eq_none.mpr]
    · have hfil : facts.filter (fun f => f.key = k) = [] := by
        rw [List.filter_eq_nil_iff]
        intro f hf hkey
        exact hk (List.mem_dedup.mpr
          (List.mem_map.mpr ⟨f, hf, by simpa using hkey⟩))
      simp [sumRevAt, sumQtyAt, hfil]
    · intro x hx
      obtain ⟨k', _, rfl⟩ := List.mem_map.1 hx
      intro hx'
      simp only [decide_eq_true_eq] at hx'
      subst hx'
      exact hk (by assumption)

/-- C2: every reconciled row's actual revenue equals the sum of the `Sum`
line totals of the fact rows sharing its (outlet, segment, month) key (units
likewise); plan rows with no matching facts get actual revenue 0 and actual
units 0; a fact row whose key matches no plan row appears in no reconciled
row, yet the full month-normalised fact table is returned alongside. -/
theorem prepare_data_spec (df_fact : List FactRow) (df_plan : List PlanRow) :
    ((prepare_data df_fact df_plan).2 = df_fact) ∧
    (∀ row ∈ (prepare_data df_fact df_plan).1,
       row.revenueFact = sumRevAt df_fact row.key ∧
       row.unitsFact = sumQtyAt df_fact row.key) ∧
    (∀ row ∈ (prepare_data df_fact df_plan).1,
       (∀ f ∈ df_fact, f.key ≠ row.key) →
       row.revenueFact = 0 ∧ row.unitsFact = 0) ∧
    (∀ f ∈ df_fact, (∀ p ∈ df_plan, p.key ≠ f.key) →
       ∀ row ∈ (prepare_data df_fact df_plan).1, row.key ≠ f.key) := by
  have hkey : ∀ row ∈ (prepare_data df_fact df_plan).1,
      ∃ p ∈ df_plan, row.key = p.key ∧
        row.revenueFact = (lookupAgg (fact_agg df_fact) p.key).1 ∧
        row.unitsFact = (lookupAgg (fact_agg df_fact) p.key).2 := by
    intro row hrow
    obtain ⟨p, hp, rfl⟩ := List.mem_map.1 hrow
    exact ⟨p, hp, rfl, rfl, rfl⟩
  refine ⟨rfl, ?_, ?_, ?_⟩
  · intro row hrow
    obtain ⟨p, _, hk, hr, hu⟩ := hkey row hrow
    rw [hr, hu, lookupAgg_fact_agg, hk]
    exact ⟨rfl, rfl⟩
  · intro row hrow hnone
    obtain ⟨p, _, hk, hr, hu⟩ := hkey row hrow
    have hfil : df_fact.filter (fun f => f.key = row.key) = [] := by
      rw [List.filter_eq_nil_iff]
      intro f hf hkey'
      exact hnone f hf (by simpa using hkey')
    rw [hr, hu, lookupAgg_fact_agg, ← hk]
    constructor
    · simp [sumRevAt, hfil]
    · simp [sumQtyAt, hfil]
  · intro f _ hplan row hrow
    obtain ⟨p, hp, hk, _, _⟩ := hkey row hrow
    rw [hk]
    exact (hplan p hp).symm ∘ Eq.symm

/-- Witness for C2: two matching fact rows (5 + 7) and one unmatched fact
row reconcile against a single plan row. -/
theorem prepare_data_spec_witness :
    (prepare_data
        [⟨"A", "S", 1, 5, 2⟩, ⟨"A", "S", 1, 7, 1⟩, ⟨"B", "S", 1, 4, 1⟩]
        [⟨"A", "S", 1, 10, 3⟩]).1 =
      [⟨"A", "S", 1, 10, 3, 12, 3, 2, 20, 0, 0⟩] ∧
    (⟨"A", "S", 1, 10, 3, 12, 3, 2, 20, 0, 0⟩ : MergedRow).revenueFact =
      sumRevAt [⟨"A", "S", 1, 5, 2⟩, ⟨"A", "S", 1, 7, 1⟩, ⟨"B", "S", 1, 4, 1⟩]
        (⟨"A", "S", 1, 10, 3, 12, 3, 2, 20, 0, 0⟩ : MergedRow).key := by
  have hm : (prepare_data
        [⟨"A", "S", 1, 5, 2⟩, ⟨"A", "S", 1, 7, 1⟩, ⟨"B", "S", 1, 4, 1⟩]
        [⟨"A", "S", 1, 10, 3⟩]).1 =
      [⟨"A", "S", 1, 10, 3, 12, 3, 2, 20, 0, 0⟩] := by
    simp [prepare_data, lookupAgg, fact_agg, factKeys, sumRevAt, sumQtyAt,
      FactRow.key, PlanRow.key, safe_divide, round2, roundHalfEven,
      List.dedup_cons_of_not_mem, List.filter_cons]
    norm_num
  refine ⟨hm, ((prepare_data_spec
      [⟨"A", "S", 1, 5, 2⟩, ⟨"A", "S", 1, 7, 1⟩, ⟨"B", "S", 1, 4, 1⟩]
      [⟨"A", "S", 1, 10, 3⟩]).2.1
    ⟨"A", "S", 1, 10, 3, 12, 3, 2, 20, 0, 0⟩
    (by rw [hm]; exact List.mem_singleton.mpr rfl)).1⟩

lemma mem_insertByMonth (m x : MonthPoint) (l : List MonthPoint) :
    x ∈ insertByMonth m l ↔ x = m ∨ x ∈ l := by
  induction l with
  | nil => simp [insertByMonth]
  | cons y ys ih =>
    by_cases h : m.month ≤ y.month
    · simp [insertByMonth, h]
    · simp only [insertByMonth, if_neg h, List.mem_cons, ih]
      tauto

lemma mem_sortByMonth (x : MonthPoint) (l : List MonthPoint) :
    x ∈ sortByMonth l ↔ x ∈ l := by
  induction l with
  | nil => simp [sortByMonth]
  | cons y ys ih => simp [sortByMonth, mem_insertByMonth, ih]

lemma monthly_sales_nonneg (facts : List FactRow) (h : ∀ f ∈ facts, 0 ≤ f.s) :
    ∀ m ∈ monthly_sales facts, 0 ≤ m.s := by
  intro m hm
  unfold monthly_sales at hm
  rw [mem_sortByMonth] at hm
  obtain ⟨mo, _, rfl⟩ := List.mem_map.1 hm
  apply List.sum_nonneg
  intro x hx
  obtain ⟨f, hf, rfl⟩ := List.mem_map.1 hx
  exact h f (List.mem_filter.1 hf).1

lemma growthRates_eq_spec (l : List ℚ) (h : ∀ x ∈ l, 0 ≤ x) :
    growthRates l = specGrowthRates l := by
  induction l with
  | nil => rfl
  | cons a t ih =>
    cases t with
    | nil => rfl
    | cons b r =>
      have ha : 0 ≤ a := h a (by simp)
      have ht := ih (fun x hx => h x (List.mem_cons_of_mem a hx))
      simp only [growthRates, specGrowthRates] at ht ⊢
      rw [ht]
      congr 1
      by_cases haz : a = 0
      · subst haz
        simp
      · rw [if_pos (lt_of_le_of_ne ha (Ne.symm haz)), if_pos haz]

/-- C7: the growth-rate estimator returns the arithmetic mean, over
consecutive pairs of the chronologically sorted monthly series, of the
percent revenue changes, skipping pairs with zero prior revenue (on the
nonnegative-revenue series the program works with, the source's
`prev > 0` guard and the spec's `prev ≠ 0` coincide); it returns 0 when
fewer than 2 months exist or no valid pair exists, and on the series
100, 110, 121, 133.1 it returns exactly 10. -/
theorem calculate_growth_rate_spec :
    (∀ df_fact : List FactRow, (∀ f ∈ df_fact, 0 ≤ f.s) →
      ((monthly_sales df_fact).length < 2 → (calculate_growth_rate df_fact).1 = 0) ∧
      (specGrowthRates ((monthly_sales df_fact).map MonthPoint.s) = [] →
        (calculate_growth_rate df_fact).1 = 0) ∧
      (2 ≤ (monthly_sales df_fact).length →
        specGrowthRates ((monthly_sales df_fact).map MonthPoint.s) ≠ [] →
        (calculate_growth_rate df_fact).1 =
          (specGrowthRates ((monthly_sales df_fact).map MonthPoint.s)).sum /
            (specGrowthRates ((monthly_sales df_fact).map MonthPoint.s)).length)) ∧
    (calculate_growth_rate
      [⟨"A", "S", 1, 100, 1⟩, ⟨"A", "S", 2, 110, 1⟩, ⟨"A", "S", 3, 121, 1⟩,
       ⟨"A", "S", 4, 1331 / 10, 1⟩]).1 = 10 := by
  constructor
  · intro df_fact h
    have hnn : ∀ x ∈ (monthly_sales df_fact).map MonthPoint.s, 0 ≤ x := by
      intro x hx
      obtain ⟨m, hm, rfl⟩ := List.mem_map.1 hx
      exact monthly_sales_nonneg df_fact h m hm
    have heq := growthRates_eq_spec _ hnn
    refine ⟨?_, ?_, ?_⟩
    · intro hlen
      simp [calculate_growth_rate, hlen]
    · intro hspec
      by_cases hlen : (monthly_sales df_fact).length < 2
      · simp [calculate_growth_rate, hlen]
      · simp [calculate_growth_rate, hlen, heq, hspec]
    · intro hlen hne
      have hlen' : ¬ (monthly_sales df_fact).length < 2 := by omega
      simp [calculate_growth_rate, hlen', heq, hne, mean]
  · simp [calculate_growth_rate, monthly_sales, monthKeys, sumRevMonth, sumQtyMonth,
      sortByMonth, insertByMonth, List.dedup_cons_of_not_mem, List.filter_cons]
    norm_num [growthRates, mean]
    simp

/-- Witness for C7: the general clauses applied to the same 10%-growth
series. -/
theorem calculate_growth_rate_spec_witness :
    (calculate_growth_rate
      [⟨"A", "S", 1, 100, 1⟩, ⟨"A", "S", 2, 110, 1⟩, ⟨"A", "S", 3, 121, 1⟩,
       ⟨"A", "S", 4, 1331 / 10, 1⟩]).1 =
      (specGrowthRates ((monthly_sales
        [⟨"A", "S", 1, 100, 1⟩, ⟨"A", "S", 2, 110, 1⟩, ⟨"A", "S", 3, 121, 1⟩,
         ⟨"A", "S", 4, 1331 / 10, 1⟩]).map MonthPoint.s)).sum /
        (specGrowthRates ((monthly_sales
          [⟨"A", "S", 1, 100, 1⟩, ⟨"A", "S", 2, 110, 1⟩, ⟨"A", "S", 3, 121, 1⟩,
           ⟨"A", "S", 4, 1331 / 10, 1⟩]).map MonthPoint.s)).length := by
  refine (calculate_growth_rate_spec.1
    [⟨"A", "S", 1, 100, 1⟩, ⟨"A", "S", 2, 110, 1⟩, ⟨"A", "S", 3, 121, 1⟩,
     ⟨"A", "S", 4, 1331 / 10, 1⟩] ?_).2.2 ?_ ?_
  · intro f hf
    fin_cases hf <;> norm_num
  · simp [monthly_sales, monthKeys, sumRevMonth, sumQtyMonth, sortByMonth,
      insertByMonth, List.dedup_cons_of_not_mem, List.filter_cons]
  · simp [monthly_sales, monthKeys, sumRevMonth, sumQtyMonth, sortByMonth,
      insertByMonth, List.dedup_cons_of_not_mem, List.filter_cons]
    norm_num [specGrowthRates]
    simp

/-- C9: when overall plan achievement is below 90 percent (e.g. 80), the
recommendation engine emits exactly one recommendation in the
plan-achievement category, it has high priority, and (the plan-achievement
branch being an if/elif) the over-achievement rule does not also fire. -/
theorem generate_plan_recommendations_spec (merged : List MergedRow) (fm : FinMetrics)
    (abc : List AbcRow) (h : fm.planAchievement < 90) :
    ((generate_plan_recommendations merged fm abc).filter
      fun r => r.category = .planAchievement).length = 1 ∧
    (∀ r ∈ generate_plan_recommendations merged fm abc,
      r.category = RecCategory.planAchievement → r.prio = .high) := by
  unfold generate_plan_recommendations
  rw [if_pos h]
  constructor
  · rw [List.filter_append, List.filter_append, List.filter_append, List.filter_append,
      List.length_append, List.length_append, List.length_append, List.length_append]
    have h2 : (((segment_performance merged).filter fun sp => sp.2 < 85).map fun _ =>
        ({ prio := .high, category := .segments } : Recommendation)).filter
        (fun r => r.category = RecCategory.planAchievement) = [] := by
      rw [List.filter_eq_nil_iff]
      intro r hr
      obtain ⟨_, _, rfl⟩ := List.mem_map.1 hr
      simp
    have h3 : ((if (abc.filter fun r => r.abcCategory = 'C').length > 0 then
        [({ prio := .medium, category := .abcAnalysis } : Recommendation)] else []).filter
        (fun r => r.category = RecCategory.planAchievement)) = [] := by
      rw [List.filter_eq_nil_iff]
      intro r hr
      split at hr <;> simp at hr
      subst hr
      simp
    have h4 : ((if fm.avgCheckDiffPct < -10 then
        [({ prio := .high, category := .avgCheck } : Recommendation)] else []).filter
        (fun r => r.category = RecCategory.planAchievement)) = [] := by
      rw [List.filter_eq_nil_iff]
      intro r hr
      split at hr <;> simp at hr
      subst hr
      simp
    have h5 : ((if fm.storeSuccessRate < 50 then
        [({ prio := .critical, category := .networkEfficiency } : Recommendation)] else []).filter
        (fun r => r.category = RecCategory.planAchievement)) = [] := by
      rw [List.filter_eq_nil_iff]
      intro r hr
      split at hr <;> simp at hr
      subst hr
      simp
    rw [h2, h3, h4, h5]
    simp
  · intro r hr hcat
    simp only [List.mem_append] at hr
    rcases hr with ((((hr | hr) | hr) | hr) | hr)
    · simp only [List.mem_singleton] at hr
      subst hr
      rfl
    · obtain ⟨_, _, rfl⟩ := List.mem_map.1 hr
      rfl
    · split at hr <;> simp at hr
      subst hr
      cases hcat
    · split at hr <;> simp at hr
      subst hr
      rfl
    · split at hr <;> simp at hr
      subst hr
      cases hcat

/-- Witness for C9 at plan achievement 80 with empty tables. -/
theorem generate_plan_recommendations_spec_witness :
    ((generate_plan_recommendations [] ⟨80, 0, 100⟩ []).filter
      fun r => r.category = .planAchievement).length = 1 ∧
    (∀ r ∈ generate_plan_recommendations [] ⟨80, 0, 100⟩ [],
      r.category = RecCategory.planAchievement → r.prio = .high) :=
  generate_plan_recommendations_spec [] ⟨80, 0, 100⟩ [] (by norm_num)

lemma wmaIter_length (weights buffer : List ℚ) (p : ℕ) :
    (wmaIter weights buffer p).length = p := by
  induction p generalizing buffer with
  | zero => rfl
  | succ n ih => simp [wmaIter, ih]

lemma forecast_linear_regression_lengths (ms : List MonthPoint) (periods : ℕ)
    (f : Forecast) (h : forecast_linear_regression ms periods = some f) :
    f.revenue.length = periods ∧ f.units.length = periods := by
  by_cases hlen : ms.length < 2
  · simp [forecast_linear_regression, hlen] at h
  · simp only [forecast_linear_regression, hlen, if_false, Option.some.injEq] at h
    subst h
    simp [Function.comp_def]

lemma forecast_polynomial_regression_lengths (ms : List MonthPoint) (periods : ℕ)
    (f : Forecast) (h : forecast_polynomial_regression ms periods = some f) :
    f.revenue.length = periods ∧ f.units.length = periods := by
  by_cases hlen : ms.length < 3
  · simp [forecast_polynomial_regression, hlen] at h
  · simp only [forecast_polynomial_regression, hlen, if_false, Option.some.injEq] at h
    subst h
    simp [Function.comp_def]

lemma forecast_exponential_smoothing_lengths (ms : List MonthPoint) (periods : ℕ)
    (f : Forecast) (h : forecast_exponential_smoothing ms periods = some f) :
    f.revenue.length = periods ∧ f.units.length = periods := by
  by_cases hlen : ms.length < 2
  · simp [forecast_exponential_smoothing, hlen] at h
  · simp only [forecast_exponential_smoothing, hlen, if_false, Option.some.injEq] at h
    subst h
    simp [Function.comp_def]

lemma forecast_weighted_moving_average_lengths (ms : List MonthPoint) (periods window : ℕ)
    (f : Forecast) (h : forecast_weighted_moving_average ms periods window = some f) :
    f.revenue.length = periods ∧ f.units.length = periods := by
  by_cases hlen : ms.length < window
  · simp [forecast_weighted_moving_average, hlen] at h
  · simp only [forecast_weighted_moving_average, hlen, if_false, Option.some.injEq] at h
    subst h
    simp [wmaIter_length]

lemma meanAtCols_getD (ls : List (List ℚ)) (p i : ℕ) (hi : i < p) :
    (meanAtCols ls p).getD i 0 = ((ls.map fun l => l.getD i 0).sum) / (ls.length : ℚ) := by
  unfold meanAtCols
  rw [List.getD_eq_getElem _ _ (by simpa using hi)]
  simp

/-- C3: the ensemble forecast returns `none` exactly when all four member
models return `none`; otherwise, for every future month, its revenue (and
unit) forecast is the arithmetic mean of the revenue (unit) forecasts of
exactly the models that produced a result. -/
theorem forecast_ensemble_spec (ms : List MonthPoint) (periods : ℕ) :
    (forecast_ensemble ms periods = none ↔
      (forecast_linear_regression ms periods = none ∧
       forecast_polynomial_regression ms periods = none ∧
       forecast_exponential_smoothing ms periods = none ∧
       forecast_weighted_moving_average ms periods (min 3 ms.length) = none)) ∧
    (∀ r, forecast_ensemble ms periods = some r → ∀ i : ℕ, i < periods →
      r.revenue.getD i 0 =
        (((ensembleModels ms periods).filterMap id).map fun f => f.revenue.getD i 0).sum /
          ((((ensembleModels ms periods).filterMap id).length : ℕ) : ℚ) ∧
      r.units.getD i 0 =
        (((ensembleModels ms periods).filterMap id).map fun f => f.units.getD i 0).sum /
          ((((ensembleModels ms periods).filterMap id).length : ℕ) : ℚ)) := by
  constructor
  · cases h1 : forecast_linear_regression ms periods <;>
      cases h2 : forecast_polynomial_regression ms periods <;>
      cases h3 : forecast_exponential_smoothing ms periods <;>
      cases h4 : forecast_weighted_moving_average ms periods (min 3 ms.length) <;>
      simp [forecast_ensemble, ensembleModels, h1, h2, h3, h4]
  · intro r hr i hi
    simp only [forecast_ensemble] at hr
    by_cases hv : ((ensembleModels ms periods).filterMap id).isEmpty
    · rw [if_pos hv] at hr
      exact absurd hr (by simp)
    · rw [if_neg hv] at hr
      have hr' := Option.some_injective _ hr
      subst hr'
      constructor
      · rw [meanAtCols_getD _ _ i hi, List.map_map, List.length_map]
        rfl
      · rw [meanAtCols_getD _ _ i hi, List.map_map, List.length_map]
        rfl

/-- Witness for C3 on a 2-month series (polynomial lacks data; linear,
exponential-smoothing and WMA contribute, giving mean revenue 94/45). -/
theorem forecast_ensemble_spec_witness :
    (⟨[94 / 45], [23 / 9], "ensemble"⟩ : Forecast).revenue.getD 0 0 =
      (((ensembleModels [⟨0, 1, 1⟩, ⟨1, 2, 2⟩] 1).filterMap id).map
        fun f => f.revenue.getD 0 0).sum /
        ((((ensembleModels [⟨0, 1, 1⟩, ⟨1, 2, 2⟩] 1).filterMap id).length : ℕ) : ℚ) ∧
    (⟨[94 / 45], [23 / 9], "ensemble"⟩ : Forecast).units.getD 0 0 =
      (((ensembleModels [⟨0, 1, 1⟩, ⟨1, 2, 2⟩] 1).filterMap id).map
        fun f => f.units.getD 0 0).sum /
        ((((ensembleModels [⟨0, 1, 1⟩, ⟨1, 2, 2⟩] 1).filterMap id).length : ℕ) : ℚ) := by
  have hens : forecast_ensemble [⟨0, 1, 1⟩, ⟨1, 2, 2⟩] 1 =
      some ⟨[94 / 45], [23 / 9], "ensemble"⟩ := by
    have hr1 : List.range 1 = [0] := rfl
    have hr2 : List.range 2 = [0, 1] := rfl
    simp [forecast_ensemble, ensembleModels, forecast_linear_regression,
      forecast_polynomial_regression, forecast_exponential_smoothing,
      forecast_weighted_moving_average, olsPredict, olsSlope, olsIntercept,
      idxList, mean, exp_smoothing, expSmoothAux, wmaWeights, wmaIter, dot,
      meanAtCols, hr1, hr2]
    norm_num [max_def]
  exact (forecast_ensemble_spec [⟨0, 1, 1⟩, ⟨1, 2, 2⟩] 1).2
    ⟨[94 / 45], [23 / 9], "ensemble"⟩ hens 0 (by norm_num)

lemma countP_flatMap {α β : Type} (l : List α) (f : α → List β) (p : β → Bool) :
    (l.flatMap f).countP p = (l.map fun a => (f a).countP p).sum := by
  induction l with
  | nil => simp
  | cons a t ih => simp [List.flatMap_cons, List.countP_append, ih]

lemma countP_eq_count_map {α β : Type} [DecidableEq β] (l : List α) (f : α → β) (b : β) :
    (l.countP fun a => f a = b) = (l.map f).count b := by
  induction l with
  | nil => simp
  | cons a t ih =>
    rw [List.map_cons, List.countP_cons, List.count_cons, ih]
    by_cases h : f a = b <;> simp [h]

lemma map_fst_map_pair {α β : Type} (l : List α) (g : α → β) :
    ((l.map fun a => (a, g a)).map fun p => p.1) = l := by
  induction l <;> simp_all

lemma store_segment_avg_keys_nodup (merged : List MergedRow) :
    ((store_segment_avg merged).map fun p => p.1).Nodup := by
  unfold store_segment_avg
  rw [map_fst_map_pair]
  exact List.nodup_dedup _

lemma sum_ite_key (pairs : List ((String × String) × ℚ × ℚ)) (k : String × String)
    (hd : (pairs.map fun p => p.1).Nodup) (hk : k ∈ pairs.map fun p => p.1) :
    (pairs.map fun row => if row.1 = k then 1 else 0).sum = 1 := by
  induction pairs with
  | nil => simp at hk
  | cons a t ih =>
    rw [List.map_cons] at hd hk
    rw [List.map_cons, List.sum_cons]
    rcases List.mem_cons.1 hk with h | h
    · rw [if_pos h.symm]
      have hz : (t.map fun row => if row.1 = k then 1 else 0).sum = 0 := by
        apply List.sum_eq_zero
        intro x hx
        obtain ⟨row, hrow, rfl⟩ := List.mem_map.1 hx
        rw [if_neg]
        intro hrk
        exact (List.nodup_cons.1 hd).1 (h ▸ hrk ▸ List.mem_map.2 ⟨row, hrow, rfl⟩)
      rw [hz]
    · have hak : a.1 ≠ k := by
        intro hak
        exact (List.nodup_cons.1 hd).1 (hak ▸ h)
      rw [if_neg hak, ih (List.nodup_cons.1 hd).2 h]

lemma forecast_next_period_eq (df_fact : List FactRow) (periods : ℕ)
    (last : MonthPoint)
    (hl : (calculate_growth_rate df_fact).2.getLast? = some last) :
    forecast_next_period df_fact periods = some ((List.range periods).map fun i =>
      { month := last.month + (i + 1)
        forecastRevenue := last.s * (1 + (calculate_growth_rate df_fact).1 / 100) ^ (i + 1)
        forecastUnits := pyInt (last.qty * (1 + (calculate_growth_rate df_fact).1 / 100) ^ (i + 1))
        growthRate := (calculate_growth_rate df_fact).1 }) := by
  simp only [forecast_next_period, hl]

lemma forecast_next_period_months_nodup (df_fact : List FactRow) (periods : ℕ)
    (fdf : List NextForecastRow) (h : forecast_next_period df_fact periods = some fdf) :
    (fdf.map fun fc => fc.month).Nodup := by
  simp only [forecast_next_period] at h
  cases hl : (calculate_growth_rate df_fact).2.getLast? with
  | none =>
    rw [hl] at h
    exact absurd h (by simp)
  | some last =>
    rw [hl] at h
    have h' := Option.some_injective _ h
    subst h'
    rw [List.map_map]
    refine List.Nodup.map ?_ (List.nodup_range periods)
    intro a b hab
    simp only [Function.comp] at hab
    omega

/-- C8 counterexample: the claim says the allocated revenue *equals* the
month's total forecast revenue times the pair's share times the adjustment
factor, but the source stores `round(planned_revenue, 2)`: with fact months
of revenue 3 then 4 (growth 100/3 %), a single pair (share 1) and factor 1,
the forecast revenue is 16/3 while the stored plan revenue is 5.33. -/
theorem create_smart_plan_counterexample :
    forecast_next_period [⟨"A", "S", 1, 3, 1⟩, ⟨"A", "S", 2, 4, 1⟩] 1 =
      some [⟨3, 16 / 3, 1, 100 / 3⟩] ∧
    safe_divide 7 (((store_segment_avg [⟨"A", "S", 1, 0, 0, 7, 1, 0, 0, 0, 0⟩]).map
      fun p => p.2.1).sum) 0 = 1 ∧
    create_smart_plan [⟨"A", "S", 1, 0, 0, 7, 1, 0, 0, 0, 0⟩]
      [⟨"A", "S", 1, 3, 1⟩, ⟨"A", "S", 2, 4, 1⟩] 1 1 =
      some [⟨"A", "S", 3, 533 / 100, 1, 100 / 3⟩] ∧
    (533 / 100 : ℚ) ≠ (16 / 3) * 1 * 1 := by
  have hgr : calculate_growth_rate [⟨"A", "S", 1, 3, 1⟩, ⟨"A", "S", 2, 4, 1⟩] =
      (100 / 3, [⟨1, 3, 1⟩, ⟨2, 4, 1⟩]) := by
    simp [calculate_growth_rate, monthly_sales, monthKeys, sumRevMonth, sumQtyMonth,
      sortByMonth, insertByMonth, List.dedup_cons_of_not_mem, List.filter_cons]
    norm_num [growthRates, mean]
  have hfp : forecast_next_period [⟨"A", "S", 1, 3, 1⟩, ⟨"A", "S", 2, 4, 1⟩] 1 =
      some [⟨3, 16 / 3, 1, 100 / 3⟩] := by
    have hr1 : List.range 1 = [0] := rfl
    simp [forecast_next_period, hgr, hr1]
    norm_num [pyInt]
  refine ⟨hfp, ?_, ?_, by norm_num⟩
  · simp [store_segment_avg, safe_divide, mean, List.dedup_cons_of_not_mem,
      List.filter_cons]
  · simp [create_smart_plan, hfp, store_segment_avg, safe_divide, mean,
      List.dedup_cons_of_not_mem, List.filter_cons]
    norm_num [round2, roundHalfEven, pyInt]

/-- C8 (amended): for every (outlet, segment) pair and every forecast month,
the smart-plan allocator emits exactly one entry, whose planned revenue is
the month's forecast revenue times the pair's historical share times the
adjustment factor *rounded to 2 decimal places* (`round(..., 2)`), and whose
planned units are the forecast units times share times factor truncated to an
integer; in particular a single pair (share 1), forecast revenue 1000 and
factor 1.0 yield exactly one entry with planned revenue 1000. -/
theorem create_smart_plan_spec :
    (∀ (merged : List MergedRow) (df_fact : List FactRow) (periods : ℕ) (adj : ℚ)
       (fdf : List NextForecastRow),
       forecast_next_period df_fact periods = some fdf → fdf ≠ [] →
       ∃ plan, create_smart_plan merged df_fact periods adj = some plan ∧
         (∀ e ∈ plan, ∃ pr ∈ store_segment_avg merged, ∃ fc ∈ fdf,
            e.magazin = pr.1.1 ∧ e.segment = pr.1.2 ∧ e.month = fc.month ∧
            e.revenuePlan = round2 (fc.forecastRevenue *
              safe_divide pr.2.1 (((store_segment_avg merged).map fun p => p.2.1).sum) 0 *
              adj) ∧
            e.unitsPlan = pyInt ((fc.forecastUnits : ℚ) *
              safe_divide pr.2.1 (((store_segment_avg merged).map fun p => p.2.1).sum) 0 *
              adj)) ∧
         (∀ pr ∈ store_segment_avg merged, ∀ fc ∈ fdf,
            (plan.filter fun e =>
              e.magazin = pr.1.1 ∧ e.segment = pr.1.2 ∧ e.month = fc.month).length = 1)) ∧
    create_smart_plan [⟨"A", "S", 1, 0, 0, 1000, 10, 0, 0, 0, 0⟩]
      [⟨"A", "S", 1, 1000, 10⟩] 1 1 = some [⟨"A", "S", 2, 1000, 10, 0⟩] := by
  constructor
  · intro merged df_fact periods adj fdf hf hne
    have hemp : fdf.isEmpty = false := by
      cases fdf with
      | nil => exact absurd rfl hne
      | cons a t => rfl
    have hplan : create_smart_plan merged df_fact periods adj =
        some ((store_segment_avg merged).flatMap fun row => fdf.map fun fc =>
          { magazin := row.1.1
            segment := row.1.2
            month := fc.month
            revenuePlan := round2 (fc.forecastRevenue *
              safe_divide row.2.1 (((store_segment_avg merged).map fun p => p.2.1).sum) 0 *
              adj)
            unitsPlan := pyInt ((fc.forecastUnits : ℚ) *
              safe_divide row.2.1 (((store_segment_avg merged).map fun p => p.2.1).sum) 0 *
              adj)
            growthRate := fc.growthRate }) := by
      simp only [create_smart_plan, hf, hemp]
      rfl
    refine ⟨_, hplan, ?_, ?_⟩
    · intro e he
      obtain ⟨row, hrow, he'⟩ := List.mem_flatMap.1 he
      obtain ⟨fc, hfc, rfl⟩ := List.mem_map.1 he'
      exact ⟨row, hrow, fc, hfc, rfl, rfl, rfl, rfl, rfl⟩
    · intro pr hpr fc hfc
      rw [← List.countP_eq_length_filter, countP_flatMap]
      have hpoint : ∀ row ∈ store_segment_avg merged,
          ((fdf.map fun fc' =>
            ({ magazin := row.1.1
               segment := row.1.2
               month := fc'.month
               revenuePlan := round2 (fc'.forecastRevenue *
                 safe_divide row.2.1
                   (((store_segment_avg merged).map fun p => p.2.1).sum) 0 * adj)
               unitsPlan := pyInt ((fc'.forecastUnits : ℚ) *
                 safe_divide row.2.1
                   (((store_segment_avg merged).map fun p => p.2.1).sum) 0 * adj)
               growthRate := fc'.growthRate } : SmartPlanRow)).countP fun e =>
            e.magazin = pr.1.1 ∧ e.segment = pr.1.2 ∧ e.month = fc.month) =
          if row.1 = pr.1 then 1 else 0 := by
        intro row _
        rw [List.countP_map]
        by_cases hkey : row.1 = pr.1
        · rw [if_pos hkey]
          have h1 : row.1.1 = pr.1.1 := by rw [hkey]
          have h2 : row.1.2 = pr.1.2 := by rw [hkey]
          have hcongr : ∀ x ∈ fdf,
              (decide (row.1.1 = pr.1.1 ∧ row.1.2 = pr.1.2 ∧ x.month = fc.month) = true) ↔
              (decide (x.month = fc.month) = true) := by
            intro x _
            simp [h1, h2]
          calc (fdf.countP fun fc' =>
                decide (row.1.1 = pr.1.1 ∧ row.1.2 = pr.1.2 ∧ fc'.month = fc.month))
              = fdf.countP fun fc' => decide (fc'.month = fc.month) :=
                List.countP_congr hcongr
            _ = (fdf.map fun fc' => fc'.month).count fc.month :=
                countP_eq_count_map fdf (fun fc' => fc'.month) fc.month
            _ = 1 := List.count_eq_one_of_mem
                (forecast_next_period_months_nodup df_fact periods fdf hf)
                (List.mem_map.2 ⟨fc, hfc, rfl⟩)
        · rw [if_neg hkey]
          rw [List.countP_eq_zero]
          intro fc' _
          simp only [Function.comp, decide_eq_true_eq, not_and]
          intro ha hb _
          exact hkey (Prod.ext ha hb)
      rw [List.map_congr_left ?_]
      · exact sum_ite_key (store_segment_avg merged) pr.1
          (store_segment_avg_keys_nodup merged)
          (List.mem_map.2 ⟨pr, hpr, rfl⟩)
      · intro row hrow
        exact hpoint row hrow
  · have hgr : calculate_growth_rate [⟨"A", "S", 1, 1000, 10⟩] =
        (0, [⟨1, 1000, 10⟩]) := by
      simp [calculate_growth_rate, monthly_sales, monthKeys, sumRevMonth, sumQtyMonth,
        sortByMonth, insertByMonth, List.filter_cons]
    have hfp : forecast_next_period [⟨"A", "S", 1, 1000, 10⟩] 1 =
        some [⟨2, 1000, 10, 0⟩] := by
      have hr1 : List.range 1 = [0] := rfl
      simp [forecast_next_period, hgr, hr1]
      norm_num [pyInt]
    simp [create_smart_plan, hfp, store_segment_avg, safe_divide, mean,
      List.filter_cons]
    norm_num [round2, roundHalfEven, pyInt]

/-- Witness for C8 at the single-pair instance with forecast revenue 1000. -/
theorem create_smart_plan_spec_witness :
    ∃ plan, create_smart_plan [⟨"A", "S", 1, 0, 0, 1000, 10, 0, 0, 0, 0⟩]
        [⟨"A", "S", 1, 1000, 10⟩] 1 1 = some plan ∧
      (∀ e ∈ plan, ∃ pr ∈ store_segment_avg [⟨"A", "S", 1, 0, 0, 1000, 10, 0, 0, 0, 0⟩],
        ∃ fc ∈ [(⟨2, 1000, 10, 0⟩ : NextForecastRow)],
          e.magazin = pr.1.1 ∧ e.segment = pr.1.2 ∧ e.month = fc.month ∧
          e.revenuePlan = round2 (fc.forecastRevenue *
            safe_divide pr.2.1 (((store_segment_avg
              [⟨"A", "S", 1, 0, 0, 1000, 10, 0, 0, 0, 0⟩]).map fun p => p.2.1).sum) 0 *
            1) ∧
          e.unitsPlan = pyInt ((fc.forecastUnits : ℚ) *
            safe_divide pr.2.1 (((store_segment_avg
              [⟨"A", "S", 1, 0, 0, 1000, 10, 0, 0, 0, 0⟩]).map fun p => p.2.1).sum) 0 *
            1)) ∧
      (∀ pr ∈ store_segment_avg [⟨"A", "S", 1, 0, 0, 1000, 10, 0, 0, 0, 0⟩],
        ∀ fc ∈ [(⟨2, 1000, 10, 0⟩ : NextForecastRow)],
          (plan.filter fun e =>
            e.magazin = pr.1.1 ∧ e.segment = pr.1.2 ∧ e.month = fc.month).length = 1) := by
  have hgr : calculate_growth_rate [⟨"A", "S", 1, 1000, 10⟩] = (0, [⟨1, 1000, 10⟩]) := by
    simp [calculate_growth_rate, monthly_sales, monthKeys, sumRevMonth, sumQtyMonth,
      sortByMonth, insertByMonth, List.filter_cons]
  have hfp : forecast_next_period [⟨"A", "S", 1, 1000, 10⟩] 1 =
      some [⟨2, 1000, 10, 0⟩] := by
    have hr1 : List.range 1 = [0] := rfl
    simp [forecast_next_period, hgr, hr1]
    norm_num [pyInt]
  exact create_smart_plan_spec.1 [⟨"A", "S", 1, 0, 0, 1000, 10, 0, 0, 0, 0⟩]
    [⟨"A", "S", 1, 1000, 10⟩] 1 1 [⟨2, 1000, 10, 0⟩] hfp (by simp)

end PlanFact
